import Mathlib

/-!
# Verification of the epi_shop cart/catalog core

A shallow embedding of `src/epi_shops/views.py` (Django views over the
`Epis` catalog model and the `Carrinhos` cart-line model), together with
proofs of the specified properties of the Catalog Service and Cart
Service.

Conventions of the embedding:
* ORM rows become Lean structures; the database becomes a `Store` record
  holding the list of catalog rows and cart-line rows plus a fresh-id
  counter (auto-increment primary keys).
* View functions that mutate state become `Store → ... → Except Err Store`:
  on `.error` the view renders an error (404 page, inline form errors, ...)
  and the store is untouched; on `.ok s2` the store becomes `s2`.
* `models.py` and `forms.py` are not part of the sources; the pieces of
  behaviour they own (form validation of the quantity, the `tipo`
  discriminator values) are modelled from the spec and marked as such in
  their doc comments.
-/

namespace EpiShop

/-- The cart-line `tipo` discriminator. Modelled from the spec: `models.py`
is not in the sources; `views.py` references only `Carrinhos.COMPRA`
("purchase-request"), and the spec says the kind discriminator admits other
future values, so we model one extra inhabitant. -/
inductive Tipo where
  | compra
  | outro
deriving DecidableEq, Repr

/-- A catalog row (`Epis` model): id, name, description, unit price
(`valor`, non-negative per the spec, modelled in cents as a `Nat`), and
stock quantity. -/
structure Epi where
  id : Nat
  nome : String
  descricao : String
  valor : Nat
  quantidade : Nat
deriving DecidableEq, Repr

/-- A cart-line row (`Carrinhos` model): id, owning user, referenced
catalog item id, quantity, and kind discriminator. Note there is no price
field: the model stores no price snapshot. -/
structure Carrinho where
  id : Nat
  usuario : Nat
  epi : Nat
  quantidade : Int
  tipo : Tipo
deriving DecidableEq, Repr

/-- The relational store: the `Epis` table, the `Carrinhos` table, and the
next auto-increment primary key for cart lines. -/
structure Store where
  epis : List Epi
  carrinhos : List Carrinho
  nextId : Nat
deriving DecidableEq, Repr

/-- The error taxonomy surfaced by the views: `http404` for
`get_object_or_404` misses, `validationError` for an invalid form,
`multipleObjectsReturned` for a `.get()` matching several rows, and
`nameError` for an unresolved Python global name. -/
inductive Err where
  | http404
  | validationError
  | multipleObjectsReturned
  | nameError
deriving DecidableEq, Repr

/-- Modelled from the spec: `AddToCartForm` lives in `forms.py`, which is
not among the sources. Per the spec, "quantity must be a positive integer
(validated before persistence)" and update "fails with ValidationError if
quantity < 1". -/
def formQuantityValid (q : Int) : Bool :=
  1 ≤ q

/-- The Boolean row predicate of the `get_or_create` call of `add_to_cart`
(views.py:137-138): `usuario=request.user, epi=epi, tipo=Carrinhos.COMPRA`. -/
def matchesTriple (user epiId : Nat) (t : Tipo) (c : Carrinho) : Bool :=
  c.usuario == user && c.epi == epiId && c.tipo == t

/-- `add_to_cart(request, pk)` (views.py:127-152), POST branch.
`get_object_or_404(Epis, pk=pk)`; if the form is valid,
`Carrinhos.objects.get_or_create(usuario, epi, tipo=COMPRA,
defaults={'quantidade': quantidade})`, and when the row already existed,
`carrinho.quantidade += quantidade; carrinho.save()`. -/
def addToCart (s : Store) (user pk : Nat) (q : Int) : Except Err Store :=
  match s.epis.find? (fun e => e.id == pk) with
  | none => .error .http404
  | some _ =>
    if formQuantityValid q then
      match s.carrinhos.filter (matchesTriple user pk .compra) with
      | [] =>
        .ok { s with
                carrinhos := s.carrinhos ++ [⟨s.nextId, user, pk, q, .compra⟩],
                nextId := s.nextId + 1 }
      | [c] =>
        .ok { s with
                carrinhos := s.carrinhos.map (fun x =>
                  if x.id == c.id then { x with quantidade := x.quantidade + q } else x) }
      | _ => .error .multipleObjectsReturned
    else
      .error .validationError

/-- `update_cart(request, item_id)` (views.py:176-190), POST branch.
`get_object_or_404(Carrinhos, pk=item_id, usuario=request.user)`; then
`AddToCartForm(request.POST, instance=item)` and `form.save()`. The form's
validation and the fact that saving it replaces the stored quantity are
modelled from the spec: "`update(user, item_id_or_line_id, quantity)`
... Replaces (does not add to) the quantity. Fails with ValidationError if
quantity < 1." (`forms.py` is not among the sources.) -/
def updateCart (s : Store) (user lineId : Nat) (q : Int) : Except Err Store :=
  match s.carrinhos.filter (fun c => c.id == lineId && c.usuario == user) with
  | [] => .error .http404
  | [c] =>
    if formQuantityValid q then
      .ok { s with
              carrinhos := s.carrinhos.map (fun x =>
                if x.id == c.id then { x with quantidade := q } else x) }
    else
      .error .validationError
  | _ => .error .multipleObjectsReturned

/-- `remove_from_cart(request, item_id)` (views.py:165-173).
`get_object_or_404(Carrinhos, pk=item_id, usuario=request.user)` then
`item.delete()`. -/
def removeFromCart (s : Store) (user lineId : Nat) : Except Err Store :=
  match s.carrinhos.filter (fun c => c.id == lineId && c.usuario == user) with
  | [] => .error .http404
  | [_] =>
    .ok { s with carrinhos := s.carrinhos.filter (fun c => !(c.id == lineId)) }
  | _ => .error .multipleObjectsReturned

/-- The current unit price of catalog item `pk`: the `item.epi.valor`
foreign-key dereference, looked up in the catalog at query time. -/
def currentPrice (s : Store) (pk : Nat) : Nat :=
  (((s.epis.find? (fun e => e.id == pk)).map Epi.valor).getD 0)

/-- `view_cart`'s queryset (views.py:160):
`Carrinhos.objects.filter(usuario=request.user, tipo=Carrinhos.COMPRA)`. -/
def viewCartItens (s : Store) (user : Nat) : List Carrinho :=
  s.carrinhos.filter (fun c => c.usuario == user && c.tipo == Tipo.compra)

/-- `view_cart`'s total (views.py:161):
`sum(item.epi.valor * item.quantidade for item in carrinho_itens)`. -/
def viewCartTotal (s : Store) (user : Nat) : Int :=
  ((viewCartItens s user).map (fun c => (currentPrice s c.epi : Int) * c.quantidade)).sum

/-- `index`'s cart queryset (views.py:31):
`Carrinhos.objects.filter(usuario=request.user)` — no `tipo` filter. -/
def indexCartItens (s : Store) (user : Nat) : List Carrinho :=
  s.carrinhos.filter (fun c => c.usuario == user)

/-- `index`'s total expression (views.py:32):
`sum(item.epi.valor * item.quantidade for item in carrinho_itens)` over the
unfiltered-by-kind queryset. -/
def indexTotalExpr (s : Store) (user : Nat) : Int :=
  ((indexCartItens s user).map (fun c => (currentPrice s c.epi : Int) * c.quantidade)).sum

/-- Lower-case a string to its character list: the case folding applied on
both sides by the ORM's `icontains` lookup. -/
def lowerChars (s : String) : List Char :=
  s.toList.map Char.toLower

/-- `startsWithChars n h` is true when `n` is an initial segment of `h`. -/
def startsWithChars : List Char → List Char → Bool
  | [], _ => true
  | _ :: _, [] => false
  | a :: as, b :: bs => a == b && startsWithChars as bs

/-- `containsChars n h` is true when `n` occurs contiguously inside `h`:
the containment test underlying the ORM's `icontains` lookup. -/
def containsChars (n h : List Char) : Bool :=
  (List.range (h.length + 1)).any (fun i => startsWithChars n (h.drop i))

/-- The ORM lookup `field__icontains=q`: case-insensitive substring
containment, used at views.py:21 and views.py:73. -/
def icontains (hay q : String) : Bool :=
  containsChars (lowerChars q) (lowerChars hay)

/-- The search filter of `index` (views.py:18-24) and of
`EpiList.get_queryset` (views.py:65-75): when a search parameter is
present and non-empty (Python truthiness of `request.GET.get('search')`),
filter by `Q(nome__icontains=q) | Q(descricao__icontains=q)`; otherwise
return all items. -/
def searchOrList (epis : List Epi) (query : Option String) : List Epi :=
  match query with
  | none => epis
  | some q =>
    if q == "" then epis
    else epis.filter (fun e => icontains e.nome q || icontains e.descricao q)

/-- Modelled from the spec: `EpiList` paginates through the framework's
`ListView` machinery (`paginate_by = 10`, views.py:55), whose code is an
external collaborator; "Results are paginated with a fixed page size
(10)". Page numbering starts at 1. -/
def getPage (l : List Epi) (page : Nat) : List Epi :=
  (l.drop (10 * (page - 1))).take 10

/-- The global names bound in the module scope of `src/epi_shops/views.py`
by its import statements (lines 1-10). -/
def moduleNames : List String :=
  ["render", "redirect", "get_object_or_404", "reverse_lazy", "reverse",
   "ListView", "DetailView", "CreateView", "UpdateView", "DeleteView",
   "Epis", "Carrinhos", "EpiForm", "AddToCartForm", "Q",
   "LoginRequiredMixin", "messages", "login_required", "HttpResponseRedirect"]

/-- `index(request)` (views.py:12-46): builds the (lazy) search queryset
(lines 18-24), then evaluates the global name `Paginator` (line 26) —
which Python resolves against the module's bound names — before computing
the cart items and total (lines 31-32). -/
def index (s : Store) (user : Nat) (query : Option String) (page : Nat) :
    Except Err (List Epi × Int) :=
  let epis := searchOrList s.epis query
  if "Paginator" ∈ moduleNames then
    .ok (getPage epis page, indexTotalExpr s user)
  else
    .error .nameError

/-- One state transition of the store: a successful cart mutation through
one of the three cart views, or an administrative change to the catalog
(the `EpiCreate`/`EpiUpdate`/`EpiDelete` views, which touch only the
`Epis` table). -/
def StepRel (s s2 : Store) : Prop :=
  (∃ user pk q, addToCart s user pk q = .ok s2) ∨
  (∃ user lineId q, updateCart s user lineId q = .ok s2) ∨
  (∃ user lineId, removeFromCart s user lineId = .ok s2) ∨
  (∃ epis2, s2 = { s with epis := epis2 })

/-- The empty initial store. -/
def emptyStore : Store := ⟨[], [], 0⟩

/-- Reachable stores: every store obtainable from the empty store by a
sequence of successful operations (failed operations leave the store as it
was, so they need no transition). -/
inductive Reachable : Store → Prop where
  | empty : Reachable emptyStore
  | step {s s2 : Store} (hr : Reachable s) (hs : StepRel s s2) : Reachable s2

/-- The spec's search predicate stated declaratively: `q` occurs inside
`hay` as a case-insensitive substring. -/
def isCISubstringOf (q hay : String) : Prop :=
  ∃ s t, lowerChars hay = s ++ lowerChars q ++ t

lemma startsWithChars_iff (n : List Char) :
    ∀ h : List Char, startsWithChars n h = true ↔ ∃ t, h = n ++ t := by
  induction n with
  | nil =>
    intro h
    simp [startsWithChars]
  | cons a as ih =>
    intro h
    cases h with
    | nil => simp [startsWithChars]
    | cons b bs =>
      simp only [startsWithChars, Bool.and_eq_true, beq_iff_eq, ih, List.cons_append,
        List.cons.injEq]
      constructor
      · rintro ⟨rfl, t, rfl⟩
        exact ⟨t, rfl, rfl⟩
      · rintro ⟨t, rfl, rfl⟩
        exact ⟨rfl, t, rfl⟩

lemma containsChars_iff (n h : List Char) :
    containsChars n h = true ↔ ∃ s t, h = s ++ n ++ t := by
  unfold containsChars
  rw [List.any_eq_true]
  constructor
  · rintro ⟨i, -, hsw⟩
    obtain ⟨t, ht⟩ := (startsWithChars_iff n (h.drop i)).mp hsw
    refine ⟨h.take i, t, ?_⟩
    conv_lhs => rw [← List.take_append_drop i h]
    rw [ht, List.append_assoc]
  · rintro ⟨s, t, rfl⟩
    refine ⟨s.length, ?_, ?_⟩
    · rw [List.mem_range]
      simp only [List.append_assoc, List.length_append]
      omega
    · rw [List.append_assoc, List.drop_left]
      exact (startsWithChars_iff n (n ++ t)).mpr ⟨t, rfl⟩

lemma icontains_iff (hay q : String) :
    icontains hay q = true ↔ isCISubstringOf q hay := by
  unfold icontains isCISubstringOf
  exact containsChars_iff _ _

lemma quant_update_matchesTriple (u i : Nat) (t : Tipo) (g : Carrinho → Int) (cid : Nat)
    (x : Carrinho) :
    matchesTriple u i t (if x.id == cid then { x with quantidade := g x } else x)
      = matchesTriple u i t x := by
  by_cases h : (x.id == cid) = true <;> simp [h, matchesTriple]

lemma quant_update_line_pred (lid u : Nat) (g : Carrinho → Int) (cid : Nat) (x : Carrinho) :
    ((if x.id == cid then { x with quantidade := g x } else x).id == lid &&
        (if x.id == cid then { x with quantidade := g x } else x).usuario == u)
      = (x.id == lid && x.usuario == u) := by
  by_cases h : (x.id == cid) = true <;> simp [h]

lemma filter_map_quant_update (cid : Nat) (g : Carrinho → Int) (l : List Carrinho)
    (p : Carrinho → Bool)
    (hp : ∀ x, p (if x.id == cid then { x with quantidade := g x } else x) = p x) :
    (l.map (fun x => if x.id == cid then { x with quantidade := g x } else x)).filter p
      = (l.filter p).map (fun x => if x.id == cid then { x with quantidade := g x } else x) := by
  rw [List.filter_map]
  congr 1
  exact List.filter_congr (fun x _ => hp x)

/-- `addToCart` succeeds in exactly two shapes: the line did not exist and
is appended with the given quantity (`get_or_create` creates), or exactly
one line matched and its quantity is incremented in place. The catalog is
untouched either way. -/
lemma addToCart_ok_cases {s s2 : Store} {user pk : Nat} {q : Int}
    (h : addToCart s user pk q = .ok s2) :
    s2.epis = s.epis ∧
    ((s.carrinhos.filter (matchesTriple user pk .compra) = [] ∧
        s2.carrinhos = s.carrinhos ++ [⟨s.nextId, user, pk, q, .compra⟩]) ∨
      (∃ c, s.carrinhos.filter (matchesTriple user pk .compra) = [c] ∧
        s2.carrinhos = s.carrinhos.map (fun x =>
          if x.id == c.id then { x with quantidade := x.quantidade + q } else x))) := by
  unfold addToCart at h
  split at h
  · exact absurd h (by simp)
  · split at h
    · split at h
      · next heq =>
        cases h
        exact ⟨rfl, Or.inl ⟨heq, rfl⟩⟩
      · next c heq =>
        cases h
        exact ⟨rfl, Or.inr ⟨c, heq, rfl⟩⟩
      · exact absurd h (by simp)
    · exact absurd h (by simp)

/-- `updateCart` succeeds only when exactly one line matches
`(pk = lineId, usuario = user)`, and then replaces that line's quantity by
`q` in place; the catalog is untouched. -/
lemma updateCart_ok_cases {s s2 : Store} {user lineId : Nat} {q : Int}
    (h : updateCart s user lineId q = .ok s2) :
    s2.epis = s.epis ∧
    ∃ c, s.carrinhos.filter (fun x => x.id == lineId && x.usuario == user) = [c] ∧
      s2.carrinhos = s.carrinhos.map (fun x =>
        if x.id == c.id then { x with quantidade := q } else x) := by
  unfold updateCart at h
  split at h
  · exact absurd h (by simp)
  · next c heq =>
    split at h
    · cases h
      exact ⟨rfl, c, heq, rfl⟩
    · exact absurd h (by simp)
  · exact absurd h (by simp)

/-- `removeFromCart` succeeds only by deleting the rows with the given
primary key; the catalog is untouched. -/
lemma removeFromCart_ok_cases {s s2 : Store} {user lineId : Nat}
    (h : removeFromCart s user lineId = .ok s2) :
    s2.epis = s.epis ∧
    s2.carrinhos = s.carrinhos.filter (fun c => !(c.id == lineId)) := by
  unfold removeFromCart at h
  split at h
  · exact absurd h (by simp)
  · cases h
    exact ⟨rfl, rfl⟩
  · exact absurd h (by simp)

/-- The per-triple uniqueness property of a cart table: at most one row
per `(usuario, epi, tipo)` triple. -/
def TripleAtMostOne (l : List Carrinho) : Prop :=
  ∀ u i t, (l.filter (matchesTriple u i t)).length ≤ 1

/-- Every row of the cart table is a purchase-request row. -/
def AllCompra (l : List Carrinho) : Prop :=
  ∀ c ∈ l, c.tipo = Tipo.compra

lemma step_preserves_tripleAtMostOne {s s2 : Store} (hs : StepRel s s2)
    (h : TripleAtMostOne s.carrinhos) : TripleAtMostOne s2.carrinhos := by
  intro u i t
  rcases hs with ⟨user, pk, q, hok⟩ | ⟨user, lineId, q, hok⟩ | ⟨user, lineId, hok⟩ | ⟨epis2, rfl⟩
  · obtain ⟨-, hcases⟩ := addToCart_ok_cases hok
    rcases hcases with ⟨hfil, hcar⟩ | ⟨c, -, hcar⟩
    · rw [hcar, List.filter_append]
      by_cases hm : matchesTriple u i t ⟨s.nextId, user, pk, q, .compra⟩ = true
      · have htr : user = u ∧ pk = i ∧ Tipo.compra = t := by
          simpa [matchesTriple, and_assoc] using hm
        obtain ⟨rfl, rfl, rfl⟩ := htr
        rw [hfil]
        simp [hm]
      · simp only [Bool.not_eq_true] at hm
        simp only [List.filter_cons, hm, List.filter_nil, List.length_append,
          List.length_nil, Nat.add_zero]
        exact h u i t
    · rw [hcar, filter_map_quant_update _ _ _ _ (quant_update_matchesTriple u i t _ _),
        List.length_map]
      exact h u i t
  · obtain ⟨-, c, -, hcar⟩ := updateCart_ok_cases hok
    rw [hcar, filter_map_quant_update _ _ _ _ (quant_update_matchesTriple u i t _ _),
      List.length_map]
    exact h u i t
  · obtain ⟨-, hcar⟩ := removeFromCart_ok_cases hok
    rw [hcar]
    calc ((s.carrinhos.filter (fun c => !(c.id == lineId))).filter (matchesTriple u i t)).length
        ≤ (s.carrinhos.filter (matchesTriple u i t)).length :=
          ((List.filter_sublist _).filter _).length_le
      _ ≤ 1 := h u i t
  · exact h u i t

lemma step_preserves_allCompra {s s2 : Store} (hs : StepRel s s2)
    (h : AllCompra s.carrinhos) : AllCompra s2.carrinhos := by
  intro c hc
  rcases hs with ⟨user, pk, q, hok⟩ | ⟨user, lineId, q, hok⟩ | ⟨user, lineId, hok⟩ | ⟨epis2, rfl⟩
  · obtain ⟨-, hcases⟩ := addToCart_ok_cases hok
    rcases hcases with ⟨-, hcar⟩ | ⟨c0, -, hcar⟩
    · rw [hcar, List.mem_append] at hc
      rcases hc with hmem | hmem
      · exact h c hmem
      · simp only [List.mem_singleton] at hmem
        simp [hmem]
    · rw [hcar, List.mem_map] at hc
      obtain ⟨x, hx, hfx⟩ := hc
      have htip : c.tipo = x.tipo := by
        rw [← hfx]
        by_cases hid : (x.id == c0.id) = true <;> simp [hid]
      rw [htip]
      exact h x hx
  · obtain ⟨-, c0, -, hcar⟩ := updateCart_ok_cases hok
    rw [hcar, List.mem_map] at hc
    obtain ⟨x, hx, hfx⟩ := hc
    have htip : c.tipo = x.tipo := by
      rw [← hfx]
      by_cases hid : (x.id == c0.id) = true <;> simp [hid]
    rw [htip]
    exact h x hx
  · obtain ⟨-, hcar⟩ := removeFromCart_ok_cases hok
    rw [hcar] at hc
    exact h c (List.mem_of_mem_filter hc)
  · exact h c hc

lemma reachable_tripleAtMostOne {s : Store} (hr : Reachable s) :
    TripleAtMostOne s.carrinhos := by
  induction hr with
  | empty => intro u i t; simp [emptyStore]
  | step hr hs ih => exact step_preserves_tripleAtMostOne hs ih

lemma reachable_allCompra {s : Store} (hr : Reachable s) :
    AllCompra s.carrinhos := by
  induction hr with
  | empty => intro c hc; simp [emptyStore] at hc
  | step hr hs ih => exact step_preserves_allCompra hs ih

/-- A concrete catalog row used in the witnesses. -/
def epiH : Epi := ⟨1, "Capacete", "protecao da cabeca", 2500, 3⟩

/-- A one-item catalog used in the witnesses. -/
def catalogA : List Epi := [epiH]

/-- The store after populating the catalog, before any cart operation. -/
def storeB : Store := ⟨catalogA, [], 0⟩

/-- The store after user 7 adds two units of item 1. -/
def storeA : Store := ⟨catalogA, [⟨0, 7, 1, 2, .compra⟩], 1⟩

lemma reachable_storeB : Reachable storeB :=
  Reachable.step Reachable.empty (Or.inr (Or.inr (Or.inr ⟨catalogA, rfl⟩)))

lemma reachable_storeA : Reachable storeA :=
  Reachable.step reachable_storeB (Or.inl ⟨7, 1, 2, rfl⟩)

/-- C10: for every store, user, search query and page number, the `index`
operation fails with `NameError`: the global name `Paginator` it applies
at views.py:26 is bound by none of the module's imports (views.py:1-10),
so its success branch — including the cart total at views.py:31-32 — is
unreachable. -/
theorem index_raises_nameError (s : Store) (u : Nat) (q : Option String) (p : Nat) :
    index s u q p = .error .nameError := by
  simp [index, moduleNames]

/-- C8: the catalog listing paginates with fixed page size 10: every page
holds at most 10 items, and exactly 10 whenever at least 10 items remain
at the page's offset. -/
theorem page_size_ten (l : List Epi) (p : Nat) :
    (getPage l p).length ≤ 10 ∧
      (10 * (p - 1) + 10 ≤ l.length → (getPage l p).length = 10) := by
  unfold getPage
  rw [List.length_take, List.length_drop]
  constructor
  · exact min_le_left _ _
  · intro h
    omega

theorem page_size_ten_witness :
    (getPage (List.replicate 12 epiH) 1).length = 10 :=
  (page_size_ten (List.replicate 12 epiH) 1).2 (by decide)

/-- C4: for every catalog and non-empty query `q`, the search used by
`index` (views.py:18-24) and `EpiList.get_queryset` (views.py:65-75)
returns exactly the items whose name or description contains `q` as a
case-insensitive substring — sound and complete — and with the query
absent it returns all items. -/
theorem search_or_list_spec (epis : List Epi) (q : String) (e : Epi) (hq : q ≠ "") :
    (e ∈ searchOrList epis (some q) ↔
      e ∈ epis ∧ (isCISubstringOf q e.nome ∨ isCISubstringOf q e.descricao)) ∧
    searchOrList epis none = epis := by
  refine ⟨?_, rfl⟩
  have hq' : (q == "") = false := by simpa using hq
  simp only [searchOrList, hq', Bool.false_eq_true, if_false, List.mem_filter,
    Bool.or_eq_true, icontains_iff]

theorem search_or_list_spec_witness :
    epiH ∈ searchOrList catalogA (some "PACE") ↔
      epiH ∈ catalogA ∧ (isCISubstringOf "PACE" epiH.nome ∨ isCISubstringOf "PACE" epiH.descricao) :=
  (search_or_list_spec catalogA "PACE" epiH (by decide)).1

/-- C3: in every reachable store (any sequence of add/update/remove cart
operations and catalog changes starting from the empty store) there is at
most one cart line per `(usuario, epi, tipo)` triple: the
get-or-create-else-increment write path never duplicates a triple. -/
theorem cart_triple_at_most_one (s : Store) (hr : Reachable s) (u i : Nat) (t : Tipo) :
    (s.carrinhos.filter (matchesTriple u i t)).length ≤ 1 :=
  reachable_tripleAtMostOne hr u i t

theorem cart_triple_at_most_one_witness :
    (storeA.carrinhos.filter (matchesTriple 7 1 Tipo.compra)).length ≤ 1 :=
  cart_triple_at_most_one storeA reachable_storeA 7 1 Tipo.compra

/-- C2: in every reachable store, `view_cart`'s total equals the sum over
all of the user's cart lines of the item's current catalog price times the
line's quantity — prices are looked up in the catalog at query time (a
cart line stores no price field), never from an add-time snapshot. -/
theorem total_value_spec (s : Store) (u : Nat) (hr : Reachable s) :
    viewCartTotal s u =
      ((s.carrinhos.filter (fun c => c.usuario == u)).map
        (fun c => (currentPrice s c.epi : Int) * c.quantidade)).sum := by
  have hall := reachable_allCompra hr
  unfold viewCartTotal viewCartItens
  congr 2
  apply List.filter_congr
  intro x hx
  simp [hall x hx]

theorem total_value_spec_witness :
    viewCartTotal storeA 7 =
      ((storeA.carrinhos.filter (fun c => c.usuario == 7)).map
        (fun c => (currentPrice storeA c.epi : Int) * c.quantidade)).sum :=
  total_value_spec storeA 7 reachable_storeA

/-- C1: starting from any store with no cart line for
`(user, pk, purchase-request)` and item `pk` in the catalog, adding `q1`
and then `q2` (both positive) leaves exactly one cart line for that
triple with quantity `q1 + q2`: the first call creates the line with `q1`,
the second increments it rather than replacing it. -/
theorem add_then_add_merges (s : Store) (user pk : Nat) (q1 q2 : Int) (e : Epi)
    (hepi : s.epis.find? (fun x => x.id == pk) = some e)
    (hnone : s.carrinhos.filter (matchesTriple user pk .compra) = [])
    (h1 : 1 ≤ q1) (h2 : 1 ≤ q2) :
    ∃ s1 s2,
      addToCart s user pk q1 = .ok s1 ∧
      s1.carrinhos.filter (matchesTriple user pk .compra)
        = [⟨s.nextId, user, pk, q1, .compra⟩] ∧
      addToCart s1 user pk q2 = .ok s2 ∧
      s2.carrinhos.filter (matchesTriple user pk .compra)
        = [⟨s.nextId, user, pk, q1 + q2, .compra⟩] := by
  have hq1 : formQuantityValid q1 = true := by
    simp only [formQuantityValid, decide_eq_true_eq]; exact h1
  have hq2 : formQuantityValid q2 = true := by
    simp only [formQuantityValid, decide_eq_true_eq]; exact h2
  set line1 : Carrinho := ⟨s.nextId, user, pk, q1, .compra⟩ with hline1
  set s1 : Store := { s with carrinhos := s.carrinhos ++ [line1], nextId := s.nextId + 1 }
    with hs1
  have hA : addToCart s user pk q1 = .ok s1 := by
    simp only [addToCart, hepi, hq1, hnone, hs1]
    rfl
  have hB : s1.carrinhos.filter (matchesTriple user pk .compra) = [line1] := by
    show (s.carrinhos ++ [line1]).filter (matchesTriple user pk .compra) = [line1]
    rw [List.filter_append, hnone]
    simp [matchesTriple, hline1]
  have hepi1 : s1.epis.find? (fun x => x.id == pk) = some e := hepi
  set s2 : Store := { s1 with carrinhos := s1.carrinhos.map (fun x =>
    if x.id == line1.id then { x with quantidade := x.quantidade + q2 } else x) } with hs2
  have hC : addToCart s1 user pk q2 = .ok s2 := by
    simp only [addToCart, hepi1, hq2, hB, hs2]
    rfl
  have hD : s2.carrinhos.filter (matchesTriple user pk .compra)
      = [⟨s.nextId, user, pk, q1 + q2, .compra⟩] := by
    show (s1.carrinhos.map (fun x =>
      if x.id == line1.id then { x with quantidade := x.quantidade + q2 } else x)).filter
        (matchesTriple user pk .compra) = _
    rw [filter_map_quant_update line1.id (fun x => x.quantidade + q2) _ _
      (quant_update_matchesTriple user pk .compra _ _), hB]
    simp [hline1]
  exact ⟨s1, s2, hA, hB, hC, hD⟩

/-- The user and cart state of the witness after the first add: user 7
holds two units of item 1 created by `addToCart storeB 7 1 2`. -/
theorem add_then_add_merges_witness :
    ∃ s1 s2,
      addToCart storeB 7 1 2 = .ok s1 ∧
      s1.carrinhos.filter (matchesTriple 7 1 .compra) = [⟨storeB.nextId, 7, 1, 2, .compra⟩] ∧
      addToCart s1 7 1 3 = .ok s2 ∧
      s2.carrinhos.filter (matchesTriple 7 1 .compra) = [⟨storeB.nextId, 7, 1, 2 + 3, .compra⟩] :=
  add_then_add_merges storeB 7 1 2 3 epiH (by rfl) (by rfl) (by decide) (by decide)

/-- C5: on a line that exists (uniquely) for the calling user,
`update_cart` with a valid quantity `q` sets the stored quantity to
exactly `q` (replacing, not adding), while `add_to_cart` for the same
item increments the stored quantity by `q`. -/
theorem update_replaces_add_increments (s : Store) (u : Nat) (c : Carrinho) (q : Int) (e : Epi)
    (hline : s.carrinhos.filter (fun x => x.id == c.id && x.usuario == u) = [c])
    (htriple : s.carrinhos.filter (matchesTriple u c.epi .compra) = [c])
    (hepi : s.epis.find? (fun x => x.id == c.epi) = some e)
    (hq : 1 ≤ q) :
    (∃ s2, updateCart s u c.id q = .ok s2 ∧
      s2.carrinhos.filter (fun x => x.id == c.id && x.usuario == u)
        = [{ c with quantidade := q }]) ∧
    (∃ s3, addToCart s u c.epi q = .ok s3 ∧
      s3.carrinhos.filter (matchesTriple u c.epi .compra)
        = [{ c with quantidade := c.quantidade + q }]) := by
  have hqv : formQuantityValid q = true := by
    simp only [formQuantityValid, decide_eq_true_eq]; exact hq
  constructor
  · set s2 : Store := { s with carrinhos := s.carrinhos.map (fun x =>
      if x.id == c.id then { x with quantidade := q } else x) } with hs2
    refine ⟨s2, ?_, ?_⟩
    · simp only [updateCart, hline, hqv, hs2]
      rfl
    · show (s.carrinhos.map (fun x =>
        if x.id == c.id then { x with quantidade := q } else x)).filter
          (fun x => x.id == c.id && x.usuario == u) = _
      rw [filter_map_quant_update c.id (fun _ => q) _ _
        (quant_update_line_pred c.id u (fun _ => q) c.id), hline]
      simp
  · set s3 : Store := { s with carrinhos := s.carrinhos.map (fun x =>
      if x.id == c.id then { x with quantidade := x.quantidade + q } else x) } with hs3
    refine ⟨s3, ?_, ?_⟩
    · simp only [addToCart, hepi, hqv, htriple, hs3]
      rfl
    · show (s.carrinhos.map (fun x =>
        if x.id == c.id then { x with quantidade := x.quantidade + q } else x)).filter
          (matchesTriple u c.epi .compra) = _
      rw [filter_map_quant_update c.id (fun x => x.quantidade + q) _ _
        (quant_update_matchesTriple u c.epi .compra _ _), htriple]
      simp

theorem update_replaces_add_increments_witness :
    (∃ s2, updateCart storeA 7 (0 : Nat) 5 = .ok s2 ∧
      s2.carrinhos.filter (fun x => x.id == (0 : Nat) && x.usuario == (7 : Nat))
        = [⟨0, 7, 1, 5, .compra⟩]) ∧
    (∃ s3, addToCart storeA 7 1 5 = .ok s3 ∧
      s3.carrinhos.filter (matchesTriple 7 1 .compra) = [⟨0, 7, 1, 2 + 5, .compra⟩]) :=
  update_replaces_add_increments storeA 7 ⟨0, 7, 1, 2, .compra⟩ 5 epiH
    (by decide) (by decide) (by rfl) (by decide)

/-- C6: updating an existing cart line to a quantity `q ≤ 0` fails with
`ValidationError`; no successor store is produced, so the stored quantity
(and the rest of the store) is untouched. -/
theorem update_nonpositive_fails (s : Store) (u lineId : Nat) (c : Carrinho) (q : Int)
    (hline : s.carrinhos.filter (fun x => x.id == lineId && x.usuario == u) = [c])
    (hq : q ≤ 0) :
    updateCart s u lineId q = .error .validationError := by
  have hqf : formQuantityValid q = false := by
    simp only [formQuantityValid, decide_eq_false_iff_not]
    omega
  unfold updateCart
  rw [hline]
  simp [hqf]

theorem update_nonpositive_fails_witness :
    updateCart storeA 7 0 0 = .error .validationError :=
  update_nonpositive_fails storeA 7 0 ⟨0, 7, 1, 2, .compra⟩ 0 (by decide) (by decide)

/-- C7: removing a line id that names no cart line of the calling user —
either because no line has that id or because the line belongs to another
user — fails with a 404; no successor store is produced, so every other
user's line is still present with its original quantity. -/
theorem remove_other_user_fails (s : Store) (u lineId : Nat)
    (h : ∀ c ∈ s.carrinhos, c.id = lineId → c.usuario ≠ u) :
    removeFromCart s u lineId = .error .http404 := by
  have hfil : s.carrinhos.filter (fun c => c.id == lineId && c.usuario == u) = [] := by
    rw [List.filter_eq_nil_iff]
    intro c hc
    simp only [Bool.and_eq_true, beq_iff_eq, not_and]
    exact h c hc
  unfold removeFromCart
  rw [hfil]

theorem remove_other_user_fails_witness :
    removeFromCart storeA 9 0 = .error .http404 ∧
    (⟨0, 7, 1, 2, Tipo.compra⟩ : Carrinho) ∈ storeA.carrinhos :=
  ⟨remove_other_user_fails storeA 9 0 (by decide), by decide⟩

lemma sum_split_by_tipo (l : List Carrinho) (f : Carrinho → Int) (u : Nat) :
    ((l.filter (fun c => c.usuario == u)).map f).sum
      = ((l.filter (fun c => c.usuario == u && c.tipo == Tipo.compra)).map f).sum
        + ((l.filter (fun c => c.usuario == u && !(c.tipo == Tipo.compra))).map f).sum := by
  induction l with
  | nil => simp
  | cons a l ih =>
    by_cases h1 : (a.usuario == u) = true
    · by_cases h2 : (a.tipo == Tipo.compra) = true
      · simp [List.filter_cons, h1, h2, ih]
        ring
      · simp [List.filter_cons, h1, h2, ih]
        ring
    · simp [List.filter_cons, h1, ih]

/-- C9 (amended): `index` (views.py:31-32) sums over all of the user's
cart lines while `view_cart` (views.py:160-161) first filters to
kind=purchase-request; the two totals therefore differ by exactly the
non-purchase-request remainder — they disagree whenever that remainder is
nonzero, but coincide when every other-kind line contributes zero. -/
theorem index_total_decomposition (s : Store) (u : Nat) :
    indexTotalExpr s u = viewCartTotal s u
      + ((s.carrinhos.filter (fun c => c.usuario == u && !(c.tipo == Tipo.compra))).map
          (fun c => (currentPrice s c.epi : Int) * c.quantidade)).sum := by
  unfold indexTotalExpr indexCartItens viewCartTotal viewCartItens
  exact sum_split_by_tipo _ _ _

/-- A zero-priced catalog row for the C9 counterexample. -/
def epiZ : Epi := ⟨1, "Luva", "protecao das maos", 0, 5⟩

/-- A store holding a non-purchase-request cart line for user 7 whose item
has price zero. -/
def storeC : Store := ⟨[epiZ], [⟨0, 7, 1, 1, .outro⟩], 1⟩

/-- C9, as frozen, is false: `storeC` contains a cart line of a
non-purchase kind for user 7, yet the two totals are equal (both zero),
because the other-kind line contributes price × quantity = 0. -/
theorem index_viewcart_totals_counterexample :
    (⟨0, 7, 1, 1, Tipo.outro⟩ : Carrinho) ∈ storeC.carrinhos ∧
    Tipo.outro ≠ Tipo.compra ∧
    indexTotalExpr storeC 7 = viewCartTotal storeC 7 := by
  decide

end EpiShop
